import Mathlib

/-!
# Verification of the auto-pr-bot pipeline

A shallow embedding of the auto-pr-bot Lambda (Go sources under
`hello-world/internal/`) together with theorems settling the specification
claims.  External collaborators (GitHub API, OpenAI API, DynamoDB, the git
binary) are modelled as oracle values supplied through an `Env` record; the
pipeline itself (`processRepository`, the `Handle` async wrapper, the status
tracker, the rate limiter, the OpenAI retry wrapper) is translated
function-by-function from the source.
-/

namespace AutoPR

/-! ## Go string primitives

Go `strings` helpers used by the sources, modelled structurally on the
character-list level (`String.data`) so that they evaluate by reduction. -/

/-- `listPre p l`: `p` is an initial segment of `l`. -/
def listPre : List Char → List Char → Bool
  | [], _ => true
  | _ :: _, [] => false
  | a :: p, b :: l => a == b && listPre p l

/-- `listSuf p l`: `p` is a final segment of `l`. -/
def listSuf (p l : List Char) : Bool :=
  listPre p.reverse l.reverse

/-- `listInf p l`: `p` occurs contiguously inside `l`. -/
def listInf (p : List Char) : List Char → Bool
  | [] => listPre p []
  | b :: l => listPre p (b :: l) || listInf p l

/-- Go `strings.HasSuffix`: `suf` is a suffix of `s`. -/
def goHasSuffix (s suf : String) : Bool :=
  listSuf suf.data s.data

/-- Go `strings.HasPrefix`-style test used by `TrimPrefix`. -/
def goHasPre (s pre : String) : Bool :=
  listPre pre.data s.data

/-- Go `strings.Contains`: `sub` occurs inside `s`. -/
def goContains (s sub : String) : Bool :=
  listInf sub.data s.data

/-- Go `strings.TrimSuffix`: remove one occurrence of `suf` from the end of
`s` when present (`s[:len(s)-len(suffix)]`). -/
def goTrimSuf (s suf : String) : String :=
  if goHasSuffix s suf then String.mk (s.data.take (s.data.length - suf.data.length))
  else s

/-- Go `strings.TrimPrefix`: remove one occurrence of `pre` from the start of
`s` when present. -/
def goTrimPre (s pre : String) : String :=
  if goHasPre s pre then String.mk (s.data.drop pre.data.length) else s

/-- Go `strings.Split` specialized to the one separator the source uses,
`"/"`: split the character list at every slash. -/
def splitSlash : List Char → List (List Char)
  | [] => [[]]
  | c :: rest =>
      match splitSlash rest with
      | [] => [[c]]
      | h :: t => if c == '/' then [] :: h :: t else (c :: h) :: t

/-! ## `internal/status/tracker.go` -/

/-- The `Status` string constants of `internal/status/tracker.go`. -/
inductive Status where
  | pending
  | validating
  | forking
  | cloning
  | analyzing
  | modifying
  | committing
  | creatingPR
  | completed
  | rejected
  | err
deriving DecidableEq, BEq, Repr

/-- The string stored for each `Status` constant (Go stores `string(status)`). -/
def Status.toGoString : Status → String
  | .pending => "pending"
  | .validating => "validating"
  | .forking => "forking"
  | .cloning => "cloning"
  | .analyzing => "analyzing"
  | .modifying => "modifying"
  | .committing => "committing"
  | .creatingPR => "creating_pr"
  | .completed => "completed"
  | .rejected => "rejected"
  | .err => "error"

/-- The `StatusRecord` DynamoDB item of `internal/status/tracker.go`.  The
`status` field holds the `Status` value whose `toGoString` the Go code
stores. -/
structure StatusRecord where
  requestId : String
  status : Status
  message : String
  step : Int
  timestamp : Int
  prUrl : String
  errorDetails : String
  repository : String
  expiresAt : Int
deriving DecidableEq, Repr

/-- The terminal statuses (`completed`, `rejected`, `error`). -/
def isTerminal : Status → Bool
  | .completed => true
  | .rejected => true
  | .err => true
  | _ => false

/-- The status→step table built inside `ParseStepFromStatus`. -/
def statusSteps : List (Status × Int) :=
  [(.pending, 0), (.validating, 0), (.forking, 1), (.cloning, 2),
   (.analyzing, 3), (.modifying, 4), (.committing, 5), (.creatingPR, 6),
   (.completed, 9), (.rejected, -1), (.err, -1)]

/-- `status.ParseStepFromStatus`: map lookup with default `0`. -/
def ParseStepFromStatus (s : Status) : Int :=
  match statusSteps.lookup s with
  | some n => n
  | none => 0

namespace Tracker

/-- The record written by `Tracker.Update` (tracker.go, lines 68-98).
Fields `PrURL` and `ErrorDetails` are not set in the Go struct literal, so
they carry the Go zero value `""`. -/
def updateRecord (requestID : String) (status : Status) (message : String)
    (step : Int) (repository : String) (now : Int) : StatusRecord :=
  { requestId := requestID
    status := status
    message := message
    step := step
    timestamp := now
    prUrl := ""
    errorDetails := ""
    repository := repository
    expiresAt := now + 48 * 3600 }

/-- The record written by `Tracker.Complete` (tracker.go, lines 100-130). -/
def completeRecord (requestID : String) (prURL : String) (repository : String)
    (now : Int) : StatusRecord :=
  { requestId := requestID
    status := .completed
    message := "Pull request created successfully"
    step := 9
    timestamp := now
    prUrl := prURL
    errorDetails := ""
    repository := repository
    expiresAt := now + 48 * 3600 }

/-- The record written by `Tracker.Reject` (tracker.go, lines 132-161).
The Go struct literal sets neither `Step` nor `PrURL`, so both carry the Go
zero values `0` and `""`. -/
def rejectRecord (requestID : String) (reason : String) (repository : String)
    (now : Int) : StatusRecord :=
  { requestId := requestID
    status := .rejected
    message := "Request rejected: prompt needs improvement"
    step := 0
    timestamp := now
    prUrl := ""
    errorDetails := reason
    repository := repository
    expiresAt := now + 48 * 3600 }

/-- The record written by `Tracker.Error` (tracker.go, lines 163-192).
As in `Reject`, `Step` and `PrURL` carry the Go zero values. -/
def errorRecord (requestID : String) (errorMsg : String) (repository : String)
    (now : Int) : StatusRecord :=
  { requestId := requestID
    status := .err
    message := "An error occurred during processing"
    step := 0
    timestamp := now
    prUrl := ""
    errorDetails := errorMsg
    repository := repository
    expiresAt := now + 48 * 3600 }

/-- The DynamoDB table, modelled as an association list; `PutItem` fully
replaces the item under the key, which the newest-first association list
realizes as last-write-wins. -/
def put (store : List (String × StatusRecord)) (r : StatusRecord) :
    List (String × StatusRecord) :=
  (r.requestId, r) :: store

/-- `Tracker.Get`: `GetItem` by request id (tracker.go, lines 194-218). -/
def getRecord (store : List (String × StatusRecord)) (id : String) :
    Option StatusRecord :=
  (store.find? (fun kv => kv.1 == id)).map (·.2)

/-- `Tracker.Update` including the `PutItem` error branch: when the put
fails the Go code logs a warning and returns `nil` ("Don't fail the entire
process if status update fails"). -/
def update (putFails : Bool) (store : List (String × StatusRecord))
    (requestID : String) (status : Status) (message : String) (step : Int)
    (repository : String) (now : Int) :
    List (String × StatusRecord) × Except String Unit :=
  if putFails then
    (store, Except.ok ())
  else
    (put store (updateRecord requestID status message step repository now),
     Except.ok ())

/-- `Tracker.Complete` with the same swallowed put error. -/
def complete (putFails : Bool) (store : List (String × StatusRecord))
    (requestID : String) (prURL : String) (repository : String) (now : Int) :
    List (String × StatusRecord) × Except String Unit :=
  if putFails then
    (store, Except.ok ())
  else
    (put store (completeRecord requestID prURL repository now), Except.ok ())

/-- `Tracker.Reject` with the same swallowed put error. -/
def reject (putFails : Bool) (store : List (String × StatusRecord))
    (requestID : String) (reason : String) (repository : String) (now : Int) :
    List (String × StatusRecord) × Except String Unit :=
  if putFails then
    (store, Except.ok ())
  else
    (put store (rejectRecord requestID reason repository now), Except.ok ())

/-- `Tracker.Error` with the same swallowed put error. -/
def error (putFails : Bool) (store : List (String × StatusRecord))
    (requestID : String) (errorMsg : String) (repository : String)
    (now : Int) :
    List (String × StatusRecord) × Except String Unit :=
  if putFails then
    (store, Except.ok ())
  else
    (put store (errorRecord requestID errorMsg repository now), Except.ok ())

end Tracker

/-! ## `internal/ratelimit/limiter.go` -/

/-- `ratelimit.MaxRequestsPerHour`. -/
def MaxRequestsPerHour : Nat := 5

/-- `ratelimit.HourInSeconds`. -/
def HourInSeconds : Int := 3600

/-- The `RateLimitRecord` DynamoDB item. -/
structure RateLimitRecord where
  requestId : String
  ipAddress : String
  timestamp : Int
  expiresAt : Int
deriving DecidableEq, Repr

/-- The `RateLimitResult` returned by `CheckRateLimit`.  `nextAvailable`
models the `time.Time` as Unix seconds, `0` being the Go zero value. -/
structure RateLimitResult where
  allowed : Bool
  requestsUsed : Nat
  requestsLimit : Nat
  nextAvailable : Int
deriving DecidableEq, Repr

/-- The key-condition of the DynamoDB query in `CheckRateLimit`:
`ipAddress = :ip AND timestamp >= :oneHourAgo`. -/
def inWindow (ip : String) (now : Int) (r : RateLimitRecord) : Bool :=
  r.ipAddress == ip && decide (now - HourInSeconds ≤ r.timestamp)

/-- `Limiter.CheckRateLimit` (limiter.go, lines 58-107): count the records
for this address in the trailing hour; allowed iff strictly below the limit;
when denied, next availability is one hour after the oldest in-window
record. -/
def CheckRateLimit (store : List RateLimitRecord) (ip : String) (now : Int) :
    RateLimitResult :=
  let items := store.filter (inWindow ip now)
  let requestCount := items.length
  let allowed := decide (requestCount < MaxRequestsPerHour)
  let nextAvailable :=
    if !allowed && decide (0 < items.length) then
      (items.foldl
        (fun oldest r => if decide (r.timestamp < oldest) then r.timestamp else oldest)
        now) + HourInSeconds
    else 0
  { allowed := allowed
    requestsUsed := requestCount
    requestsLimit := MaxRequestsPerHour
    nextAvailable := nextAvailable }

/-- The composite key `rl#{ipAddress}#{timestamp}` used by `RecordRequest`. -/
def rateLimitKey (ip : String) (now : Int) : String :=
  "rl#" ++ ip ++ "#" ++ toString now

/-- The record appended by `RecordRequest` (limiter.go, lines 109-142). -/
def recordRequestRecord (ip : String) (now : Int) : RateLimitRecord :=
  { requestId := rateLimitKey ip now
    ipAddress := ip
    timestamp := now
    expiresAt := now + HourInSeconds + 300 }

/-- `Limiter.RecordRequest` including the `PutItem` error branch: a failed
put is logged and the function returns `nil` ("Don't fail the request if
rate limit recording fails").  The `requestID` argument is only logged. -/
def RecordRequest (putFails : Bool) (store : List RateLimitRecord)
    (ip : String) (requestID : String) (now : Int) :
    List RateLimitRecord × Except String Unit :=
  if putFails then
    (store, Except.ok ())
  else
    (recordRequestRecord ip now :: store, Except.ok ())

/-! ## `handler.go` helpers -/

/-- `handler.ensureTrailingNewline` (handler.go, lines 572-581). -/
def ensureTrailingNewline (content : String) : String :=
  if content == "" then content
  else if !(goHasSuffix content "\n") then content ++ "\n"
  else content

/-- A body "ends with exactly one trailing line terminator" — stated from
the spec's words, for comparison against `ensureTrailingNewline`. -/
def endsWithExactlyOneNewline (s : String) : Bool :=
  goHasSuffix s "\n" && !(goHasSuffix s "\n\n")

/-! ## `internal/github/client.go`: `ParseRepoURL` -/

/-- `github.ParseRepoURL` (client.go, lines 43-58): strip a trailing slash
and the scheme/host, split on `/`, require at least two components. -/
def ParseRepoURL (repoURL : String) : Except String (String × String) :=
  let u1 := goTrimSuf repoURL "/"
  let u2 := goTrimPre u1 "https://"
  let u3 := goTrimPre u2 "http://"
  let u4 := goTrimPre u3 "github.com/"
  match splitSlash u4.data with
  | p0 :: p1 :: _ => Except.ok (String.mk p0, String.mk p1)
  | _ => Except.error "invalid GitHub URL format"

/-! ## `internal/openai/client.go`: retry wrapper -/

/-- An error surfaced by `doAPICall`: either an `*APIError` carrying the
HTTP status, or some other (network/JSON) error with only a message. -/
inductive APIErr where
  | api (statusCode : Nat) (message : String)
  | other (msg : String)
deriving DecidableEq, Repr

/-- `openai.isRetryableError` (client.go, lines 342-360): an `APIError` is
retryable iff its status is 429 or at least 500; other errors are retryable
iff their message mentions a timeout/connection/network failure. -/
def isRetryableError : APIErr → Bool
  | .api statusCode _ => decide (statusCode = 429) || decide (500 ≤ statusCode)
  | .other msg =>
      goContains msg "timeout" || goContains msg "connection" ||
        goContains msg "network"

/-- `openai` constant `maxRetries` inside `makeAPICall`. -/
def maxRetries : Nat := 3

/-- The backoff slept before retry attempt `attempt` (attempt ≥ 1):
Go computes `1 << (attempt-1)` seconds. -/
def backoffSeconds (attempt : Nat) : Nat := 2 ^ (attempt - 1)

/-- The retry loop of `openai.makeAPICall` (client.go, lines 256-285),
with `doCall i` the oracle outcome of the `i`-th `doAPICall`.  Arguments:
remaining loop iterations, current attempt index, `lastErr`.  Returns the
result together with the number of attempts actually performed. -/
def makeAPICallLoop (doCall : Nat → Except APIErr String) :
    Nat → Nat → APIErr → Except APIErr String × Nat
  | 0, attempt, lastErr => (Except.error lastErr, attempt)
  | remaining + 1, attempt, _lastErr =>
      match doCall attempt with
      | Except.ok response => (Except.ok response, attempt + 1)
      | Except.error e =>
          if isRetryableError e then
            makeAPICallLoop doCall remaining (attempt + 1) e
          else
            (Except.error e, attempt + 1)

/-- `openai.makeAPICall`: run the loop for `maxRetries` iterations starting
from attempt 0 (`lastErr` starts as Go's `nil`, modelled by a placeholder
that is overwritten before it can be returned). -/
def makeAPICall (doCall : Nat → Except APIErr String) :
    Except APIErr String × Nat :=
  makeAPICallLoop doCall maxRetries 0 (APIErr.other "")

/-! ## `internal/models/request.go` -/

/-- `models.Request`. -/
structure Request where
  repositoryURL : String
  gitHubUsername : String
  modificationPrompt : String
deriving DecidableEq, Repr

/-- `models.RequestWithID`. -/
structure RequestWithID where
  request : Request
  requestID : String
deriving DecidableEq, Repr

/-- `models.Request.Validate`. -/
def Request.validate (r : Request) : Except String Unit :=
  if r.repositoryURL == "" then Except.error "repositoryUrl is required"
  else if r.modificationPrompt == "" then Except.error "modificationPrompt is required"
  else Except.ok ()

/-! ## The pipeline (`handler.processRepository`)

External collaborators are oracles collected in `Env`; every GitHub / git /
OpenAI call the pipeline makes reads its outcome from the corresponding
field.  A run produces a trace of `Event`s: the tracker writes and the
externally visible GitHub actions, in program order. -/

/-- The fork object returned by `ForkRepository`. -/
structure ForkInfo where
  htmlURL : String
  cloneURL : String
deriving DecidableEq, Repr

/-- The authenticated user returned by `GetAuthenticatedUser`. -/
structure UserInfo where
  login : String
deriving DecidableEq, Repr

/-- An open pull request as returned by `ListOpenPullRequests`
(`Head.GetRef()` is `headRef`). -/
structure PullReq where
  number : Nat
  htmlURL : String
  headRef : String
deriving DecidableEq, Repr

/-- Oracle outcomes of the external calls made during one pipeline run.
`readFileContent` and `generateModifiedFile` are keyed by repository-relative
path; `commitAndPush` is `none` on success and `some msg` on failure (the
Go code distinguishes the failure whose message contains
"no changes to commit").  `addCollaborator`'s outcome is only logged. -/
structure Env where
  now : Int
  validatePrompt : Except String (Bool × String)
  forkRepository : Except String ForkInfo
  getAuthenticatedUser : Except String UserInfo
  cloneRepository : Except String String
  getDefaultBranch : Except String String
  resetToUpstream : Except String Unit
  createBranch : Except String Unit
  listFiles : Except String String
  analyzeRepositoryForFiles : Except String (List String)
  readFileContent : String → Except String String
  determineFilesToModify : Except String (List String × String)
  generateModifiedFile : String → String → Except String String
  writeFile : String → String → Except String Unit
  commitAndPush : Option String
  listOpenPullRequests : Except String (List PullReq)
  closePullRequest : Nat → Except String Unit
  deleteBranch : String → Except String Unit
  createPullRequest : Except String PullReq
  addCollaborator : Except String Unit

/-- Observable effects of one run, in program order: progress-tracker
writes, the fork/clone calls, and the GitHub PR mutations (a mutation event
is recorded when the corresponding call succeeds). -/
inductive Event where
  | track (w : StatusRecord)
  | forkCall (owner repo : String)
  | cloneCall (cloneURL : String)
  | closePR (owner repo : String) (number : Nat) (comment : String)
  | deleteBranch (owner repo branch : String)
  | createPR (upstreamOwner upstreamRepo forkOwner title body head base : String)
deriving DecidableEq, Repr

/-- Prepend already-emitted events to the remainder of a run. -/
def prependEvents (evs : List Event) (p : List Event × Except String String) :
    List Event × Except String String :=
  (evs ++ p.1, p.2)

/-- The `Tracker.Update` calls of `processRepository`, as events. -/
def wValidating (id u : String) (now : Int) : Event :=
  Event.track (Tracker.updateRecord id .validating "Validating modification request..." 0 u now)

def wForking (id u : String) (now : Int) : Event :=
  Event.track (Tracker.updateRecord id .forking "Forking repository..." 1 u now)

def wCloning (id u : String) (now : Int) : Event :=
  Event.track (Tracker.updateRecord id .cloning "Cloning forked repository..." 2 u now)

def wAnalyzing (id u : String) (now : Int) : Event :=
  Event.track (Tracker.updateRecord id .analyzing "Analyzing repository with AI..." 3 u now)

def wModifying (id u : String) (now : Int) : Event :=
  Event.track (Tracker.updateRecord id .modifying "Generating code modifications with AI..." 4 u now)

def wCommitting (id u : String) (now : Int) : Event :=
  Event.track (Tracker.updateRecord id .committing "Committing and pushing changes..." 5 u now)

def wCreatingPR (id u : String) (now : Int) : Event :=
  Event.track (Tracker.updateRecord id .creatingPR "Creating pull request..." 6 u now)

/-- The timestamped branch `auto-pr-bot/%d` (handler.go, line 314). -/
def branchName (env : Env) : String :=
  "auto-pr-bot/" ++ toString env.now

/-- Association-list update mirroring Go map assignment `m[k] = v`. -/
def mapPut (m : List (String × String)) (k v : String) : List (String × String) :=
  (k, v) :: m.filter (fun kv => !(kv.1 == k))

/-- Association-list read mirroring Go map lookup `v, ok := m[k]`. -/
def mapGet (m : List (String × String)) (k : String) : Option String :=
  (m.find? (fun kv => kv.1 == k)).map (·.2)

/-- Step 2 of `processRepository`: read each candidate file, skipping files
that fail to read (handler.go, lines 340-351). -/
def readAll (env : Env) (filesToRead : List String) : List (String × String) :=
  filesToRead.foldl
    (fun acc relPath =>
      match env.readFileContent relPath with
      | Except.error _ => acc
      | Except.ok content => mapPut acc relPath content)
    []

/-- Step 4 of `processRepository`: generate a replacement body per file; a
file missing from the read set is read on demand; per-file failures are
skipped (handler.go, lines 370-393). -/
def generateAll (env : Env) (fileContents : List (String × String))
    (filesToModify : List String) : List (String × String) :=
  filesToModify.foldl
    (fun acc filePath =>
      match mapGet fileContents filePath with
      | some originalContent =>
          match env.generateModifiedFile filePath originalContent with
          | Except.error _ => acc
          | Except.ok modified => mapPut acc filePath modified
      | none =>
          match env.readFileContent filePath with
          | Except.error _ => acc
          | Except.ok originalContent =>
              match env.generateModifiedFile filePath originalContent with
              | Except.error _ => acc
              | Except.ok modified => mapPut acc filePath modified)
    []

/-- Step 5 of `processRepository`: write each generated body, normalized by
`ensureTrailingNewline`; a write failure aborts (handler.go, lines 400-409). -/
def writeAll (env : Env) : List (String × String) → Except String Unit
  | [] => Except.ok ()
  | (filePath, content) :: rest =>
      match env.writeFile filePath (ensureTrailingNewline content) with
      | Except.error e => Except.error ("failed to write file " ++ filePath ++ ": " ++ e)
      | Except.ok _ => writeAll env rest

/-- `formatModifiedFilesList` (handler.go, lines 596-602). -/
def formatModifiedFilesList (modified : List (String × String)) : String :=
  modified.foldl (fun acc kv => acc ++ "- " ++ kv.1 ++ "\n") ""

/-- The PR title `Auto PR: %s`. -/
def prTitle (req : Request) : String :=
  "Auto PR: " ++ req.modificationPrompt

/-- The PR body template (handler.go, lines 487-499). -/
def prBody (req : Request) (explanation : String)
    (modifiedFiles : List (String × String)) : String :=
  "This is an automated pull request.\n\n**Modification Request:**\n" ++
    req.modificationPrompt ++ "\n\n**Changes Made:**\n" ++ explanation ++
    "\n\n**Modified Files:**\n" ++ formatModifiedFilesList modifiedFiles ++
    "\n\n---\n*Generated by Auto PR Bot*"

/-- The comment left when superseding an existing PR (handler.go, line 460). -/
def closeComment (req : Request) : String :=
  "Closing this PR to create a new one with updated changes.\n\nNew modification request: " ++
    req.modificationPrompt

/-- The early-success response when no changes are needed and a PR already
exists (handler.go, lines 443-452). -/
def noChangesResponse (owner repo : String) (fork : ForkInfo) (pr : PullReq) : String :=
  "No changes needed - PR already exists!\n\nOriginal: " ++ owner ++ "/" ++ repo ++
    "\nFork: " ++ fork.htmlURL ++ "\nExisting Pull Request: " ++ pr.htmlURL ++
    "\n\nThe requested changes are already in the open PR."

/-- The final success response (handler.go, lines 551-567). -/
def successResponse (owner repo : String) (fork : ForkInfo) (pr : PullReq)
    (filesToRead : List String) (modifiedFiles : List (String × String))
    (explanation : String) : String :=
  "Repository processed successfully!\n\nOriginal: " ++ owner ++ "/" ++ repo ++
    "\nFork: " ++ fork.htmlURL ++ "\nPull Request: " ++ pr.htmlURL ++
    "\n\nFiles analyzed: " ++ toString filesToRead.length ++
    "\nFiles modified: " ++ toString modifiedFiles.length ++
    "\n\nExplanation: " ++ explanation ++
    "\n\nModified Files:\n" ++ formatModifiedFilesList modifiedFiles

/-- Step 7's supersession loop (handler.go, lines 456-477): per located PR,
comment-and-close it (failure only logged), then delete its head branch on
the fork unless that branch is the default branch (failure only logged). -/
def closeAll (env : Env) (req : Request) (owner repo : String) (user : UserInfo)
    (defaultBranch : String) : List PullReq → List Event
  | [] => []
  | pr :: rest =>
      (match env.closePullRequest pr.number with
       | Except.ok _ => [Event.closePR owner repo pr.number (closeComment req)]
       | Except.error _ => []) ++
      (if pr.headRef == defaultBranch then []
       else
         match env.deleteBranch pr.headRef with
         | Except.ok _ => [Event.deleteBranch user.login repo pr.headRef]
         | Except.error _ => []) ++
      closeAll env req owner repo user defaultBranch rest

/-- Step 8 of `processRepository` (handler.go, lines 483-518): tracker write
`creating_pr`, create the PR from the timestamped branch onto upstream's
default branch, then the terminal `completed` write.  The step-9 collaborator
grant only logs, so it leaves no event. -/
def createPRStage (env : Env) (req : Request) (requestID owner repo : String)
    (user : UserInfo) (fork : ForkInfo) (defaultBranch : String)
    (filesToRead : List String) (modifiedFiles : List (String × String))
    (explanation : String) : List Event × Except String String :=
  prependEvents [wCreatingPR requestID req.repositoryURL env.now] <|
    match env.createPullRequest with
    | Except.error e => ([], Except.error ("failed to create pull request: " ++ e))
    | Except.ok pr =>
        ([Event.createPR owner repo user.login (prTitle req)
            (prBody req explanation modifiedFiles) (branchName env) defaultBranch,
          Event.track (Tracker.completeRecord requestID pr.htmlURL req.repositoryURL env.now)],
         Except.ok (successResponse owner repo fork pr filesToRead modifiedFiles explanation))

/-- Step 7 of `processRepository` (handler.go, lines 430-481): list open bot
PRs whose head is the fork's default branch.  A listing failure is only
logged.  With PRs found and no new changes, succeed with the first PR's URL;
with PRs found and new changes, supersede them and create the new PR; with
no PRs and no changes, fail. -/
def reconcile (env : Env) (req : Request) (requestID owner repo : String)
    (user : UserInfo) (fork : ForkInfo) (defaultBranch : String)
    (filesToRead : List String) (modifiedFiles : List (String × String))
    (explanation : String) (hasChanges : Bool) : List Event × Except String String :=
  match env.listOpenPullRequests with
  | Except.error _ =>
      createPRStage env req requestID owner repo user fork defaultBranch
        filesToRead modifiedFiles explanation
  | Except.ok existingPRs =>
      match existingPRs, hasChanges with
      | [], true =>
          createPRStage env req requestID owner repo user fork defaultBranch
            filesToRead modifiedFiles explanation
      | [], false => ([], Except.error "no changes to commit and no existing PR found")
      | pr0 :: rest, true =>
          prependEvents (closeAll env req owner repo user defaultBranch (pr0 :: rest))
            (createPRStage env req requestID owner repo user fork defaultBranch
              filesToRead modifiedFiles explanation)
      | pr0 :: _, false => ([], Except.ok (noChangesResponse owner repo fork pr0))

/-- Outcome classification of the `git.CommitAndPush` call (handler.go,
lines 415-428): success yields `hasChanges = true`; a failure whose message
contains "no changes to commit" yields `hasChanges = false`; any other
failure aborts the run. -/
def commitOutcome : Option String → Except String Bool
  | none => Except.ok true
  | some msg =>
      if goContains msg "no changes to commit" then Except.ok false
      else Except.error msg

/-- Step 6 of `processRepository` (handler.go, lines 411-428): tracker write
`committing`, then commit-and-push classified by `commitOutcome`. -/
def doCommit (env : Env) (req : Request) (requestID owner repo : String)
    (user : UserInfo) (fork : ForkInfo) (defaultBranch : String)
    (filesToRead : List String) (modifiedFiles : List (String × String))
    (explanation : String) : List Event × Except String String :=
  prependEvents [wCommitting requestID req.repositoryURL env.now] <|
    match commitOutcome env.commitAndPush with
    | Except.error msg => ([], Except.error ("failed to commit and push: " ++ msg))
    | Except.ok hasChanges =>
        reconcile env req requestID owner repo user fork defaultBranch
          filesToRead modifiedFiles explanation hasChanges

/-- Steps 4-5 of `processRepository` (handler.go, lines 367-409): generate
the modified bodies (empty result aborts) and write them to disk. -/
def doGenerate (env : Env) (req : Request) (requestID owner repo : String)
    (user : UserInfo) (fork : ForkInfo) (defaultBranch : String)
    (filesToRead : List String) (fileContents : List (String × String))
    (filesToModify : List String) (explanation : String) :
    List Event × Except String String :=
  match generateAll env fileContents filesToModify with
  | [] => ([], Except.error "no files could be modified")
  | kv :: ms =>
      match writeAll env (kv :: ms) with
      | Except.error e => ([], Except.error e)
      | Except.ok _ =>
          doCommit env req requestID owner repo user fork defaultBranch
            filesToRead (kv :: ms) explanation

/-- Step 3 of `processRepository` (handler.go, lines 357-368): ask which
files to modify, then tracker write `modifying`. -/
def doPlan (env : Env) (req : Request) (requestID owner repo : String)
    (user : UserInfo) (fork : ForkInfo) (defaultBranch : String)
    (filesToRead : List String) (fileContents : List (String × String)) :
    List Event × Except String String :=
  match env.determineFilesToModify with
  | Except.error e => ([], Except.error ("failed to determine files to modify: " ++ e))
  | Except.ok (filesToModify, explanation) =>
      prependEvents [wModifying requestID req.repositoryURL env.now]
        (doGenerate env req requestID owner repo user fork defaultBranch
          filesToRead fileContents filesToModify explanation)

/-- Step 2 of `processRepository` (handler.go, lines 339-355): read the
candidate files; an empty read set aborts. -/
def doRead (env : Env) (req : Request) (requestID owner repo : String)
    (user : UserInfo) (fork : ForkInfo) (defaultBranch : String)
    (filesToRead : List String) : List Event × Except String String :=
  match readAll env filesToRead with
  | [] => ([], Except.error "no files could be read")
  | kv :: fcs =>
      doPlan env req requestID owner repo user fork defaultBranch filesToRead
        (kv :: fcs)

/-- Step 3's tracker write and the analysis call (handler.go, lines 329-337). -/
def doAnalyze (env : Env) (req : Request) (requestID owner repo : String)
    (user : UserInfo) (fork : ForkInfo) (defaultBranch : String) :
    List Event × Except String String :=
  prependEvents [wAnalyzing requestID req.repositoryURL env.now] <|
    match env.analyzeRepositoryForFiles with
    | Except.error e =>
        ([], Except.error ("failed to analyze repository with OpenAI: " ++ e))
    | Except.ok filesToRead =>
        doRead env req requestID owner repo user fork defaultBranch filesToRead

/-- File listing (handler.go, lines 320-327). -/
def doListFiles (env : Env) (req : Request) (requestID owner repo : String)
    (user : UserInfo) (fork : ForkInfo) (defaultBranch : String) :
    List Event × Except String String :=
  match env.listFiles with
  | Except.error e => ([], Except.error ("failed to list files: " ++ e))
  | Except.ok _fileTree =>
      doAnalyze env req requestID owner repo user fork defaultBranch

/-- Timestamped branch creation (handler.go, lines 313-318). -/
def doCreateBranch (env : Env) (req : Request) (requestID owner repo : String)
    (user : UserInfo) (fork : ForkInfo) (defaultBranch : String) :
    List Event × Except String String :=
  match env.createBranch with
  | Except.error e => ([], Except.error ("failed to create branch: " ++ e))
  | Except.ok _ =>
      doListFiles env req requestID owner repo user fork defaultBranch

/-- Fork reset to upstream (handler.go, lines 306-311). -/
def doReset (env : Env) (req : Request) (requestID owner repo : String)
    (user : UserInfo) (fork : ForkInfo) (defaultBranch : String) :
    List Event × Except String String :=
  match env.resetToUpstream with
  | Except.error e => ([], Except.error ("failed to reset to upstream: " ++ e))
  | Except.ok _ =>
      doCreateBranch env req requestID owner repo user fork defaultBranch

/-- Default-branch query (handler.go, lines 298-304). -/
def doDefaultBranch (env : Env) (req : Request) (requestID owner repo : String)
    (user : UserInfo) (fork : ForkInfo) : List Event × Except String String :=
  match env.getDefaultBranch with
  | Except.error e => ([], Except.error ("failed to get default branch: " ++ e))
  | Except.ok defaultBranch =>
      doReset env req requestID owner repo user fork defaultBranch

/-- Clone of the fork (handler.go, lines 282-296). -/
def doClone (env : Env) (req : Request) (requestID owner repo : String)
    (user : UserInfo) (fork : ForkInfo) : List Event × Except String String :=
  match env.cloneRepository with
  | Except.error e => ([], Except.error ("clone failed: " ++ e))
  | Except.ok _clonePath =>
      doDefaultBranch env req requestID owner repo user fork

/-- Authenticated-user query, then the step-2 tracker write and the clone
call (handler.go, lines 266-283). -/
def doUser (env : Env) (req : Request) (requestID owner repo : String)
    (fork : ForkInfo) : List Event × Except String String :=
  match env.getAuthenticatedUser with
  | Except.error e => ([], Except.error ("failed to get user info: " ++ e))
  | Except.ok user =>
      prependEvents
        [wCloning requestID req.repositoryURL env.now, Event.cloneCall fork.cloneURL]
        (doClone env req requestID owner repo user fork)

/-- Step 1 of `processRepository` (handler.go, lines 256-264): tracker write
`forking`, then the fork call. -/
def doFork (env : Env) (req : Request) (requestID owner repo : String) :
    List Event × Except String String :=
  prependEvents [wForking requestID req.repositoryURL env.now, Event.forkCall owner repo] <|
    match env.forkRepository with
    | Except.error e => ([], Except.error ("fork failed: " ++ e))
    | Except.ok fork => doUser env req requestID owner repo fork

/-- The verdict of the validation gate (handler.go, lines 244-254):
`some reason` exactly when the validator returned an explicit
not-actionable verdict (`isValid = false`); a validator *service* failure
is logged and treated as passing, as is a pass verdict. -/
def validationVerdict : Except String (Bool × String) → Option String
  | Except.ok (false, reason) => some reason
  | _ => none

/-- `handler.processRepository` (handler.go, lines 232-570): URL parse, the
validation gate (a validator *service* failure is logged and skipped; an
explicit not-actionable verdict writes `rejected` and stops), then the
fork-to-PR pipeline. -/
def processRepository (env : Env) (req : Request) (requestID : String) :
    List Event × Except String String :=
  match ParseRepoURL req.repositoryURL with
  | Except.error e => ([], Except.error ("invalid repository URL: " ++ e))
  | Except.ok (owner, repo) =>
      prependEvents [wValidating requestID req.repositoryURL env.now] <|
        match validationVerdict env.validatePrompt with
        | some reason =>
            ([Event.track (Tracker.rejectRecord requestID reason req.repositoryURL env.now)],
             Except.error ("prompt validation failed: " ++ reason))
        | none => doFork env req requestID owner repo

/-- The async branch of `handler.Handle` around `processRepository`
(handler.go, lines 175-184): on failure, write a terminal `error` record
unless the failure message contains "prompt validation failed" (so a
`rejected` record is never overwritten). -/
def handleAsyncCore (env : Env) (req : Request) (requestID : String)
    (p : List Event × Except String String) : List Event × Except String String :=
  match p with
  | (evs, Except.ok result) => (evs, Except.ok result)
  | (evs, Except.error e) =>
      if goContains e "prompt validation failed" then (evs, Except.error e)
      else
        (evs ++ [Event.track (Tracker.errorRecord requestID e req.repositoryURL env.now)],
         Except.error e)

/-- The async branch applied to the pipeline's own outcome. -/
def handleAsync (env : Env) (req : Request) (requestID : String) :
    List Event × Except String String :=
  handleAsyncCore env req requestID (processRepository env req requestID)

/-- Outcome of the async invocation path of `Handle`: a 400 response before
any processing, or the pipeline's own result. -/
inductive AsyncOutcome where
  | badRequest (msg : String)
  | run (result : Except String String)
deriving Repr

/-- The async invocation path of `handler.Handle` (handler.go, lines 65-76
and 159-187): validate the parsed payload, then — minting a fresh identifier
when the payload carries none — run the pipeline. -/
def handleAsyncInvocation (env : Env) (freshUUID : String) (rw : RequestWithID) :
    List Event × AsyncOutcome :=
  match rw.request.validate with
  | Except.error e => ([], AsyncOutcome.badRequest e)
  | Except.ok _ =>
      let requestID := if rw.requestID == "" then freshUUID else rw.requestID
      let p := handleAsync env rw.request requestID
      (p.1, AsyncOutcome.run p.2)

/-- The tracker writes of a trace, in order. -/
def trackWrites (evs : List Event) : List StatusRecord :=
  evs.filterMap fun e =>
    match e with
    | Event.track w => some w
    | _ => none

/-- The initial `pending` record written by the synchronous intake path
before async dispatch (handler.go, line 113). -/
def pendingRecord (id u : String) (now : Int) : StatusRecord :=
  Tracker.updateRecord id .pending "Request received, starting processing..." 0 u now

/-- All progress-tracker writes of one accepted request: the intake path's
`pending` record followed by the async run's writes. -/
def acceptedRequestWrites (env : Env) (req : Request) (id : String) :
    List StatusRecord :=
  pendingRecord id req.repositoryURL env.now :: trackWrites (handleAsync env req id).1

/-- The PRs created during a run: `(forkOwner, headBranch, baseBranch)`. -/
def createdPRs (evs : List Event) : List (String × String × String) :=
  evs.filterMap fun e =>
    match e with
    | Event.createPR _ _ forkOwner _ _ head base => some (forkOwner, head, base)
    | _ => none

/-- The PRs closed during a run: `(number, comment)`. -/
def closedPRs (evs : List Event) : List (Nat × String) :=
  evs.filterMap fun e =>
    match e with
    | Event.closePR _ _ n c => some (n, c)
    | _ => none

/-- The branches deleted during a run: `(owner, repo, branch)`. -/
def deletedBranches (evs : List Event) : List (String × String × String) :=
  evs.filterMap fun e =>
    match e with
    | Event.deleteBranch owner repo branch => some (owner, repo, branch)
    | _ => none

/-- The fork calls of a run. -/
def forkCalls (evs : List Event) : List (String × String) :=
  evs.filterMap fun e =>
    match e with
    | Event.forkCall owner repo => some (owner, repo)
    | _ => none

/-- The clone calls of a run. -/
def cloneCalls (evs : List Event) : List String :=
  evs.filterMap fun e =>
    match e with
    | Event.cloneCall url => some url
    | _ => none

/-- The fork returned by the sample oracle. -/
def okFork : ForkInfo :=
  ⟨"https://github.com/bot/widgets", "https://github.com/bot/widgets.git"⟩

/-- The authenticated bot account of the sample oracle. -/
def okUser : UserInfo := ⟨"bot"⟩

/-- The PR created by the sample oracle. -/
def okPR : PullReq :=
  ⟨42, "https://github.com/acme/widgets/pull/42", "auto-pr-bot/1700000000"⟩

/-- A pre-existing open bot PR from the fork's default branch. -/
def pr7 : PullReq := ⟨7, "https://github.com/acme/widgets/pull/7", "main"⟩

/-- A second pre-existing open bot PR, from an old timestamped branch. -/
def pr8 : PullReq := ⟨8, "https://github.com/acme/widgets/pull/8", "auto-pr-bot/1690000000"⟩

/-- An oracle on which every external call succeeds, used to instantiate
hypothesis-bearing theorems at a concrete input. -/
def okEnv : Env where
  now := 1700000000
  validatePrompt := Except.ok (true, "Clear intent provided")
  forkRepository := Except.ok okFork
  getAuthenticatedUser := Except.ok okUser
  cloneRepository := Except.ok "/tmp/bot-widgets"
  getDefaultBranch := Except.ok "main"
  resetToUpstream := Except.ok ()
  createBranch := Except.ok ()
  listFiles := Except.ok "README.md\n"
  analyzeRepositoryForFiles := Except.ok ["README.md"]
  readFileContent := fun _ => Except.ok "# Widgets\n"
  determineFilesToModify := Except.ok (["README.md"], "Added a contributing section")
  generateModifiedFile := fun _ _ => Except.ok "# Widgets\n\nContributing welcome."
  writeFile := fun _ _ => Except.ok ()
  commitAndPush := none
  listOpenPullRequests := Except.ok []
  closePullRequest := fun _ => Except.ok ()
  deleteBranch := fun _ => Except.ok ()
  createPullRequest := Except.ok okPR
  addCollaborator := Except.ok ()

/-- A concrete change request used by witnesses. -/
def sampleReq : Request :=
  { repositoryURL := "https://github.com/acme/widgets"
    gitHubUsername := ""
    modificationPrompt := "Add a CONTRIBUTING.md with setup instructions" }

/-- A store of `n` rate-limit records for one address, all inside the
trailing hour, used to instantiate the 5-allowed/6th-denied scenario. -/
def windowStore (ip : String) (now : Int) (n : Nat) : List RateLimitRecord :=
  (List.range n).map fun (i : Nat) =>
    { requestId := rateLimitKey ip (now - (i : Int))
      ipAddress := ip
      timestamp := now - (i : Int)
      expiresAt := now - (i : Int) + HourInSeconds + 300 }

/-- The forward stage order of §4.3, with terminal stages excluded. -/
def stageSeq : List Status :=
  [.pending, .validating, .forking, .cloning, .analyzing, .modifying,
   .committing, .creatingPR]

/-- `beginsCanonical l canon`: `l` is an initial segment of `canon`. -/
def beginsCanonical : List Status → List Status → Bool
  | [], _ => true
  | _ :: _, [] => false
  | a :: l, b :: m => a == b && beginsCanonical l m

/-- Step numbers never decrease along the list. -/
def monotoneSteps : List Int → Bool
  | [] => true
  | [_] => true
  | a :: b :: l => decide (a ≤ b) && monotoneSteps (b :: l)

/-- Well-formedness of one run's tracker-write sequence, as the spec's stage
machine demands: the non-terminal writes visit stages as an initial segment
of `pending, validating, forking, cloning, analyzing, modifying, committing,
creating_pr` (so no earlier stage is ever re-entered); each non-terminal
write carries the step of `ParseStepFromStatus`; steps are non-decreasing
until a terminal write; a terminal write (`completed`, `rejected`, `error`)
occurs only as the final write; and a `completed` write carries step 9. -/
def c1check (ws : List StatusRecord) : Bool :=
  beginsCanonical ((ws.filter fun w => !isTerminal w.status).map (·.status)) stageSeq
    && monotoneSteps ((ws.takeWhile fun w => !isTerminal w.status).map (·.step))
    && (ws.dropLast.all fun w => !isTerminal w.status)
    && ((ws.filter fun w => !isTerminal w.status).all fun w =>
          w.step == ParseStepFromStatus w.status)
    && (ws.all fun w => !(w.status == Status.completed) || (w.step == (9 : Int)))

/-! ## Helper lemmas -/

/-- A list is an initial segment of itself extended by anything. -/
lemma listPre_append_self (a b : List Char) : listPre a (a ++ b) = true := by
  induction a with
  | nil => rfl
  | cons c a ih => simp [listPre, ih]

/-- The error produced by the rejection branch always contains the marker
substring that `Handle` checks before writing an `error` record. -/
lemma contains_pvf (reason : String) :
    goContains ("prompt validation failed: " ++ reason) "prompt validation failed" = true := by
  obtain ⟨l⟩ := reason
  rfl

/-- Every record of `windowStore ip now n` (for `n ≤ 3600`) satisfies the
rate-limit query's key condition. -/
lemma windowStore_filter (ip : String) (now : Int) (n : Nat) (hn : n ≤ 3600) :
    (windowStore ip now n).filter (inWindow ip now) = windowStore ip now n := by
  apply List.filter_eq_self.mpr
  intro r hr
  simp only [windowStore, List.mem_map, List.mem_range] at hr
  obtain ⟨i, hi, rfl⟩ := hr
  simp only [inWindow, HourInSeconds, Bool.and_eq_true, beq_self_eq_true, true_and,
    decide_eq_true_eq]
  omega

/-- `windowStore` holds `n` records. -/
lemma windowStore_length (ip : String) (now : Int) (n : Nat) :
    (windowStore ip now n).length = n := by
  simp only [windowStore, List.length_map, List.length_range]

/-- `trackWrites` distributes over trace concatenation. -/
lemma trackWrites_append (a b : List Event) :
    trackWrites (a ++ b) = trackWrites a ++ trackWrites b := by
  simp [trackWrites, List.filterMap_append]

/-- The supersession loop emits no tracker writes. -/
lemma trackWrites_closeAll (env : Env) (req : Request) (owner repo : String)
    (user : UserInfo) (defaultBranch : String) (prs : List PullReq) :
    trackWrites (closeAll env req owner repo user defaultBranch prs) = [] := by
  induction prs with
  | nil => rfl
  | cons pr rest ih =>
      simp only [closeAll, trackWrites_append, ih, List.append_nil]
      have h1 : trackWrites
          (match env.closePullRequest pr.number with
           | Except.ok _ => [Event.closePR owner repo pr.number (closeComment req)]
           | Except.error _ => []) = [] := by
        rcases env.closePullRequest pr.number with e | v <;> rfl
      have h2 : trackWrites
          (if pr.headRef == defaultBranch then []
           else
             match env.deleteBranch pr.headRef with
             | Except.ok _ => [Event.deleteBranch user.login repo pr.headRef]
             | Except.error _ => []) = [] := by
        split
        · rfl
        · rcases env.deleteBranch pr.headRef with e | v <;> rfl
      rw [h1, h2]
      rfl

set_option maxHeartbeats 2000000 in
/-- Master case analysis of the async run: for every oracle, the progress
writes of an accepted request (the intake `pending` record followed by the
async run's writes) are well-formed in the sense of `c1check`, and every
write is keyed by the run's request identity. -/
lemma run_trace_ok (env : Env) (req : Request) (id : String) :
    c1check (acceptedRequestWrites env req id) = true
    ∧ ∀ w ∈ trackWrites (handleAsync env req id).1, w.requestId = id := by
  simp only [acceptedRequestWrites, handleAsync]
  rcases hP : ParseRepoURL req.repositoryURL with e | ow
  · simp only [processRepository, hP, handleAsyncCore]
    split
    · exact ⟨rfl, by simp [trackWrites]⟩
    · refine ⟨rfl, ?_⟩
      intro w hw
      simp [trackWrites] at hw
      subst hw
      rfl
  · obtain ⟨owner, repo⟩ := ow
    simp only [processRepository, hP]
    rcases hV : validationVerdict env.validatePrompt with _ | reason
    case some =>
      simp only [hV, prependEvents, handleAsyncCore, contains_pvf, if_true]
      refine ⟨rfl, ?_⟩
      intro w hw
      simp [trackWrites, wValidating] at hw
      rcases hw with rfl | rfl <;> rfl
    case none =>
      simp only [hV, doFork, prependEvents]
      rcases hF : env.forkRepository with e | fork
      · simp only [hF, handleAsyncCore]
        split <;>
          exact ⟨rfl, by
            simp [trackWrites, List.forall_mem_cons, wValidating, wForking, wCloning,
              wAnalyzing, wModifying, wCommitting, wCreatingPR, Tracker.updateRecord,
              Tracker.errorRecord, Tracker.completeRecord]⟩
      · simp only [hF, doUser]
        rcases hU : env.getAuthenticatedUser with e | user
        · simp only [hU, handleAsyncCore]
          split <;>
            exact ⟨rfl, by
              simp [trackWrites, List.forall_mem_cons, wValidating, wForking, wCloning,
                wAnalyzing, wModifying, wCommitting, wCreatingPR, Tracker.updateRecord,
                Tracker.errorRecord, Tracker.completeRecord]⟩
        · simp only [hU, prependEvents, doClone]
          rcases hC : env.cloneRepository with e | clonePath
          · simp only [hC, handleAsyncCore]
            split <;>
              exact ⟨rfl, by
                simp [trackWrites, List.forall_mem_cons, wValidating, wForking, wCloning,
                  wAnalyzing, wModifying, wCommitting, wCreatingPR, Tracker.updateRecord,
                  Tracker.errorRecord, Tracker.completeRecord]⟩
          · simp only [hC, doDefaultBranch]
            rcases hD : env.getDefaultBranch with e | defaultBranch
            · simp only [hD, handleAsyncCore]
              split <;>
                exact ⟨rfl, by
                  simp [trackWrites, List.forall_mem_cons, wValidating, wForking, wCloning,
                    wAnalyzing, wModifying, wCommitting, wCreatingPR, Tracker.updateRecord,
                    Tracker.errorRecord, Tracker.completeRecord]⟩
            · simp only [hD, doReset]
              rcases hR : env.resetToUpstream with e | _
              · simp only [hR, handleAsyncCore]
                split <;>
                  exact ⟨rfl, by
                    simp [trackWrites, List.forall_mem_cons, wValidating, wForking, wCloning,
                      wAnalyzing, wModifying, wCommitting, wCreatingPR, Tracker.updateRecord,
                      Tracker.errorRecord, Tracker.completeRecord]⟩
              · simp only [hR, doCreateBranch]
                rcases hB : env.createBranch with e | _
                · simp only [hB, handleAsyncCore]
                  split <;>
                    exact ⟨rfl, by
                      simp [trackWrites, List.forall_mem_cons, wValidating, wForking, wCloning,
                        wAnalyzing, wModifying, wCommitting, wCreatingPR, Tracker.updateRecord,
                        Tracker.errorRecord, Tracker.completeRecord]⟩
                · simp only [hB, doListFiles]
                  rcases hL : env.listFiles with e | fileTree
                  · simp only [hL, handleAsyncCore]
                    split <;>
                      exact ⟨rfl, by
                        simp [trackWrites, List.forall_mem_cons, wValidating, wForking, wCloning,
                          wAnalyzing, wModifying, wCommitting, wCreatingPR, Tracker.updateRecord,
                          Tracker.errorRecord, Tracker.completeRecord]⟩
                  · simp only [hL, doAnalyze, prependEvents]
                    rcases hA : env.analyzeRepositoryForFiles with e | filesToRead
                    · simp only [hA, handleAsyncCore]
                      split <;>
                        exact ⟨rfl, by
                          simp [trackWrites, List.forall_mem_cons, wValidating, wForking, wCloning,
                            wAnalyzing, wModifying, wCommitting, wCreatingPR, Tracker.updateRecord,
                            Tracker.errorRecord, Tracker.completeRecord]⟩
                    · simp only [hA, doRead]
                      rcases hRd : readAll env filesToRead with _ | ⟨kv, fcs⟩
                      · simp only [hRd, handleAsyncCore]
                        split <;>
                          exact ⟨rfl, by
                            simp [trackWrites, List.forall_mem_cons, wValidating, wForking, wCloning,
                              wAnalyzing, wModifying, wCommitting, wCreatingPR, Tracker.updateRecord,
                              Tracker.errorRecord, Tracker.completeRecord]⟩
                      · simp only [hRd, doPlan]
                        rcases hPl : env.determineFilesToModify with e | ⟨filesToModify, explanation⟩
                        · simp only [hPl, handleAsyncCore]
                          split <;>
                            exact ⟨rfl, by
                              simp [trackWrites, List.forall_mem_cons, wValidating, wForking, wCloning,
                                wAnalyzing, wModifying, wCommitting, wCreatingPR, Tracker.updateRecord,
                                Tracker.errorRecord, Tracker.completeRecord]⟩
                        · simp only [hPl, prependEvents, doGenerate]
                          rcases hG : generateAll env (kv :: fcs) filesToModify with _ | ⟨kv2, ms⟩
                          · simp only [hG, handleAsyncCore]
                            split <;>
                              exact ⟨rfl, by
                                simp [trackWrites, List.forall_mem_cons, wValidating, wForking, wCloning,
                                  wAnalyzing, wModifying, wCommitting, wCreatingPR, Tracker.updateRecord,
                                  Tracker.errorRecord, Tracker.completeRecord]⟩
                          · simp only [hG]
                            rcases hW : writeAll env (kv2 :: ms) with e | _
                            · simp only [hW, handleAsyncCore]
                              split <;>
                                exact ⟨rfl, by
                                  simp [trackWrites, List.forall_mem_cons, wValidating, wForking, wCloning,
                                    wAnalyzing, wModifying, wCommitting, wCreatingPR, Tracker.updateRecord,
                                    Tracker.errorRecord, Tracker.completeRecord]⟩
                            · simp only [hW, doCommit, prependEvents]
                              rcases hCm : commitOutcome env.commitAndPush with msg | hasChanges
                              · simp only [hCm, handleAsyncCore]
                                split <;>
                                  exact ⟨rfl, by
                                    simp [trackWrites, List.forall_mem_cons, wValidating, wForking, wCloning,
                                      wAnalyzing, wModifying, wCommitting, wCreatingPR, Tracker.updateRecord,
                                      Tracker.errorRecord, Tracker.completeRecord]⟩
                              · simp only [hCm, reconcile]
                                rcases hLi : env.listOpenPullRequests with e | prs
                                · simp only [hLi, createPRStage, prependEvents]
                                  rcases hCr : env.createPullRequest with e | pr
                                  · simp only [hCr, handleAsyncCore]
                                    split <;>
                                      exact ⟨rfl, by
                                        simp [trackWrites, List.forall_mem_cons, wValidating, wForking, wCloning,
                                          wAnalyzing, wModifying, wCommitting, wCreatingPR, Tracker.updateRecord,
                                          Tracker.errorRecord, Tracker.completeRecord]⟩
                                  · simp only [hCr, handleAsyncCore]
                                    exact ⟨rfl, by
                                      simp [trackWrites, List.forall_mem_cons, wValidating, wForking, wCloning,
                                        wAnalyzing, wModifying, wCommitting, wCreatingPR, Tracker.updateRecord,
                                        Tracker.errorRecord, Tracker.completeRecord]⟩
                                · rcases prs with _ | ⟨pr0, rest⟩ <;> cases hasChanges
                                  · -- no PRs, no changes
                                    simp only [hLi, handleAsyncCore]
                                    split <;>
                                      exact ⟨rfl, by
                                        simp [trackWrites, List.forall_mem_cons, wValidating, wForking, wCloning,
                                          wAnalyzing, wModifying, wCommitting, wCreatingPR, Tracker.updateRecord,
                                          Tracker.errorRecord, Tracker.completeRecord]⟩
                                  · -- no PRs, changes: create the PR
                                    simp only [hLi, createPRStage, prependEvents]
                                    rcases hCr : env.createPullRequest with e | pr
                                    · simp only [hCr, handleAsyncCore]
                                      split <;>
                                        exact ⟨rfl, by
                                          simp [trackWrites, List.forall_mem_cons, wValidating, wForking, wCloning,
                                            wAnalyzing, wModifying, wCommitting, wCreatingPR, Tracker.updateRecord,
                                            Tracker.errorRecord, Tracker.completeRecord]⟩
                                    · simp only [hCr, handleAsyncCore]
                                      exact ⟨rfl, by
                                        simp [trackWrites, List.forall_mem_cons, wValidating, wForking, wCloning,
                                          wAnalyzing, wModifying, wCommitting, wCreatingPR, Tracker.updateRecord,
                                          Tracker.errorRecord, Tracker.completeRecord]⟩
                                  · -- existing PRs, no changes: early success
                                    simp only [hLi, handleAsyncCore]
                                    exact ⟨rfl, by
                                      simp [trackWrites, List.forall_mem_cons, wValidating, wForking, wCloning,
                                        wAnalyzing, wModifying, wCommitting, wCreatingPR, Tracker.updateRecord,
                                        Tracker.errorRecord, Tracker.completeRecord]⟩
                                  · -- existing PRs, changes: supersede then create
                                    simp only [hLi, createPRStage, prependEvents]
                                    rcases hCr : env.createPullRequest with e | pr
                                    · simp only [hCr, handleAsyncCore]
                                      split <;>
                                        exact ⟨by
                                          simp only [trackWrites_append, trackWrites_closeAll]
                                          rfl, by
                                          simp only [trackWrites_append, trackWrites_closeAll]
                                          simp [trackWrites, List.forall_mem_cons, wValidating,
                                            wForking, wCloning, wAnalyzing, wModifying, wCommitting,
                                            wCreatingPR, Tracker.updateRecord, Tracker.errorRecord,
                                            Tracker.completeRecord]⟩
                                    · simp only [hCr, handleAsyncCore]
                                      exact ⟨by
                                        simp only [trackWrites_append, trackWrites_closeAll]
                                        rfl, by
                                        simp only [trackWrites_append, trackWrites_closeAll]
                                        simp [trackWrites, List.forall_mem_cons, wValidating,
                                          wForking, wCloning, wAnalyzing, wModifying, wCommitting,
                                          wCreatingPR, Tracker.updateRecord, Tracker.errorRecord,
                                          Tracker.completeRecord]⟩

/-- `closedPRs` distributes over trace concatenation. -/
lemma closedPRs_append (a b : List Event) :
    closedPRs (a ++ b) = closedPRs a ++ closedPRs b := by
  simp [closedPRs, List.filterMap_append]

/-- `deletedBranches` distributes over trace concatenation. -/
lemma deletedBranches_append (a b : List Event) :
    deletedBranches (a ++ b) = deletedBranches a ++ deletedBranches b := by
  simp [deletedBranches, List.filterMap_append]

/-- `createdPRs` distributes over trace concatenation. -/
lemma createdPRs_append (a b : List Event) :
    createdPRs (a ++ b) = createdPRs a ++ createdPRs b := by
  simp [createdPRs, List.filterMap_append]

/-- When every close call succeeds, the supersession loop closes exactly the
listed PRs, each with the supersession comment. -/
lemma closedPRs_closeAll (env : Env) (req : Request) (owner repo : String)
    (user : UserInfo) (defaultBranch : String) (prs : List PullReq)
    (hClose : ∀ n, env.closePullRequest n = Except.ok ())
    (hDel : ∀ b, env.deleteBranch b = Except.ok ()) :
    closedPRs (closeAll env req owner repo user defaultBranch prs)
      = prs.map fun pr => (pr.number, closeComment req) := by
  induction prs with
  | nil => rfl
  | cons pr rest ih =>
      simp only [closeAll, hClose pr.number, hDel pr.headRef, closedPRs_append, ih,
        List.map_cons]
      split <;> rfl

/-- When every delete call succeeds, the supersession loop deletes, on the
fork, the head branch of each listed PR except those whose head is the
default branch. -/
lemma deletedBranches_closeAll (env : Env) (req : Request) (owner repo : String)
    (user : UserInfo) (defaultBranch : String) (prs : List PullReq)
    (hClose : ∀ n, env.closePullRequest n = Except.ok ())
    (hDel : ∀ b, env.deleteBranch b = Except.ok ()) :
    deletedBranches (closeAll env req owner repo user defaultBranch prs)
      = ((prs.filter fun pr => !(pr.headRef == defaultBranch)).map
          fun pr => (user.login, repo, pr.headRef)) := by
  induction prs with
  | nil => rfl
  | cons pr rest ih =>
      simp only [closeAll, hClose pr.number, hDel pr.headRef, deletedBranches_append, ih,
        List.filter_cons]
      rcases h : pr.headRef == defaultBranch with _ | _ <;>
        simp [h, deletedBranches]

/-- The supersession loop creates no PR. -/
lemma createdPRs_closeAll (env : Env) (req : Request) (owner repo : String)
    (user : UserInfo) (defaultBranch : String) (prs : List PullReq) :
    createdPRs (closeAll env req owner repo user defaultBranch prs) = [] := by
  induction prs with
  | nil => rfl
  | cons pr rest ih =>
      simp only [closeAll, createdPRs_append, ih, List.append_nil]
      have h1 : createdPRs
          (match env.closePullRequest pr.number with
           | Except.ok _ => [Event.closePR owner repo pr.number (closeComment req)]
           | Except.error _ => []) = [] := by
        rcases env.closePullRequest pr.number with e | v <;> rfl
      have h2 : createdPRs
          (if pr.headRef == defaultBranch then []
           else
             match env.deleteBranch pr.headRef with
             | Except.ok _ => [Event.deleteBranch user.login repo pr.headRef]
             | Except.error _ => []) = [] := by
        split
        · rfl
        · rcases env.deleteBranch pr.headRef with e | v <;> rfl
      rw [h1, h2]
      rfl

/-! ## Claim theorems -/

/-- C3: `CheckRateLimit` allows a client address exactly when the number of
rate-limit records for that address with a timestamp in the trailing 3600
seconds is strictly below the limit of 5, reporting that count as `used` and
5 as `limit`; hence with 0–4 such records on file a request is allowed
(5 successive requests all pass) and with 5 on file the 6th is denied. -/
theorem checkRateLimit_correct (store : List RateLimitRecord) (ip : String) (now : Int) :
    ((CheckRateLimit store ip now).allowed = true ↔
      (store.filter (inWindow ip now)).length < 5)
    ∧ (CheckRateLimit store ip now).requestsUsed = (store.filter (inWindow ip now)).length
    ∧ (CheckRateLimit store ip now).requestsLimit = 5
    ∧ (∀ r : RateLimitRecord,
        inWindow ip now r = true ↔ (r.ipAddress = ip ∧ now - 3600 ≤ r.timestamp))
    ∧ (∀ k, k < 5 → (CheckRateLimit (windowStore ip now k) ip now).allowed = true)
    ∧ (CheckRateLimit (windowStore ip now 5) ip now).allowed = false := by
  refine ⟨?_, rfl, rfl, ?_, ?_, ?_⟩
  · simp [CheckRateLimit, MaxRequestsPerHour]
  · intro r
    simp [inWindow, HourInSeconds]
  · intro k hk
    simp only [CheckRateLimit, MaxRequestsPerHour, windowStore_filter ip now k (by omega),
      windowStore_length, decide_eq_true_eq]
    exact hk
  · simp only [CheckRateLimit, MaxRequestsPerHour, windowStore_filter ip now 5 (by omega),
      windowStore_length]
    decide

/-- C3 witness: with 4 in-window records on file the 5th request is
allowed. -/
theorem checkRateLimit_correct_witness :
    (CheckRateLimit (windowStore "1.2.3.4" 1700000000 4) "1.2.3.4" 1700000000).allowed
      = true :=
  (checkRateLimit_correct (windowStore "1.2.3.4" 1700000000 4) "1.2.3.4"
    1700000000).2.2.2.2.1 4 (by decide)

/-- C6 counterexample: the claim's "persisted = body + terminator iff the
body lacked one" fails on the empty body (it lacks a terminator yet the
write stage leaves it empty), and the claim's "ends with exactly one
trailing line terminator" fails on a body that already ends with two. -/
theorem ensureTrailingNewline_claim_cex :
    (goHasSuffix "" "\n" = false ∧ ensureTrailingNewline "" ≠ "" ++ "\n")
    ∧ ensureTrailingNewline "a\n\n" = "a\n\n"
    ∧ endsWithExactlyOneNewline (ensureTrailingNewline "a\n\n") = false := by
  refine ⟨⟨by decide, by decide⟩, rfl, by decide⟩

/-- C6 amended: the write stage persists the generated body unchanged when
it is empty or already ends with a line terminator, and appends exactly one
terminator otherwise.  Hence the persisted content is byte-identical to the
generated body except for the possibly-added terminator, and every nonempty
persisted body ends with a line terminator (at least one — possibly more
when the body already carried several). -/
theorem ensureTrailingNewline_amended (s : String) :
    (s = "" → ensureTrailingNewline s = s)
    ∧ (goHasSuffix s "\n" = true → ensureTrailingNewline s = s)
    ∧ (s ≠ "" → goHasSuffix s "\n" = false → ensureTrailingNewline s = s ++ "\n")
    ∧ (ensureTrailingNewline s = s ∨ ensureTrailingNewline s = s ++ "\n")
    ∧ (s ≠ "" → goHasSuffix (ensureTrailingNewline s) "\n" = true) := by
  by_cases hs : s = ""
  · subst hs
    exact ⟨fun _ => rfl, fun _ => rfl, fun h => absurd rfl h, Or.inl rfl,
      fun h => absurd rfl h⟩
  · by_cases hnl : goHasSuffix s "\n" = true
    · have hkeep : ensureTrailingNewline s = s := by
        simp [ensureTrailingNewline, hs, hnl]
      refine ⟨fun h => absurd h hs, fun _ => hkeep, ?_, Or.inl hkeep, fun _ => ?_⟩
      · intro _ h
        rw [h] at hnl
        cases hnl
      · rw [hkeep]
        exact hnl
    · have hnl' : goHasSuffix s "\n" = false := by
        cases h : goHasSuffix s "\n"
        · rfl
        · exact absurd h hnl
      have happ : ensureTrailingNewline s = s ++ "\n" := by
        simp [ensureTrailingNewline, hs, hnl']
      refine ⟨fun h => absurd h hs, fun h => absurd h hnl, fun _ _ => happ,
        Or.inr happ, fun _ => ?_⟩
      rw [happ]
      simp only [goHasSuffix, listSuf, String.data_append, List.reverse_append]
      exact listPre_append_self _ _

/-- C6 witness: a nonempty body lacking a terminator gets exactly one
appended. -/
theorem ensureTrailingNewline_amended_witness :
    ensureTrailingNewline "abc" = "abc" ++ "\n" :=
  (ensureTrailingNewline_amended "abc").2.2.1 (by decide) rfl

/-- C8: `RecordRequest` and the tracker writes `Update`, `Complete`,
`Reject`, `Error` all return success even when the backing-store put fails:
the storage error is logged and swallowed, so an observability write can
never abort a run. -/
theorem storageWrites_failOpen (putFails : Bool)
    (tstore : List (String × StatusRecord)) (rstore : List RateLimitRecord)
    (id message repo ip prUrl reason errMsg : String) (s : Status)
    (step : Int) (now : Int) :
    (Tracker.update putFails tstore id s message step repo now).2 = Except.ok ()
    ∧ (Tracker.complete putFails tstore id prUrl repo now).2 = Except.ok ()
    ∧ (Tracker.reject putFails tstore id reason repo now).2 = Except.ok ()
    ∧ (Tracker.error putFails tstore id errMsg repo now).2 = Except.ok ()
    ∧ (RecordRequest putFails rstore ip id now).2 = Except.ok () := by
  cases putFails <;>
    exact ⟨rfl, rfl, rfl, rfl, rfl⟩

/-- C9: `Reject` and `Error` always store a record whose step is 0 and whose
pull-request URL is empty (the Go struct literals leave both fields unset),
and since a put fully replaces the stored item, a subsequent `get` returns
that record — step 0 — no matter what step the previously stored record for
the same request identity carried. -/
theorem rejectError_step_zero (store : List (String × StatusRecord))
    (id reason errMsg repo : String) (now : Int) :
    ((Tracker.rejectRecord id reason repo now).step = 0
      ∧ (Tracker.rejectRecord id reason repo now).prUrl = ""
      ∧ (Tracker.errorRecord id errMsg repo now).step = 0
      ∧ (Tracker.errorRecord id errMsg repo now).prUrl = "")
    ∧ Tracker.getRecord (Tracker.put store (Tracker.rejectRecord id reason repo now)) id
        = some (Tracker.rejectRecord id reason repo now)
    ∧ Tracker.getRecord (Tracker.put store (Tracker.errorRecord id errMsg repo now)) id
        = some (Tracker.errorRecord id errMsg repo now) := by
  refine ⟨⟨rfl, rfl, rfl, rfl⟩, ?_, ?_⟩ <;>
    simp [Tracker.getRecord, Tracker.put, Tracker.rejectRecord, Tracker.errorRecord,
      List.find?]

/-- C7 counterexample: the claim limits the retryable API-error class to
status 429 or a 5xx status (500–599) and says any other status is returned
immediately without a retry; but the code retries on *any* status ≥ 500, so
an API error with status 600 — outside 5xx — is retried until the 3 attempts
are exhausted instead of being returned after 1 attempt. -/
theorem makeAPICall_claim_cex :
    isRetryableError (APIErr.api 600 "boom") = true
    ∧ ¬ (600 = 429 ∨ (500 ≤ 600 ∧ 600 ≤ 599))
    ∧ makeAPICall (fun _ => Except.error (APIErr.api 600 "boom"))
        = (Except.error (APIErr.api 600 "boom"), 3) := by
  refine ⟨by decide, by decide, rfl⟩

/-- C7 amended: the model-service call wrapper makes at most 3 attempts with
exponential backoff (1s then 2s); a first-attempt failure is returned
immediately (1 attempt) when the error is not retryable and leads to a
further attempt when it is; and the retryable class for API errors is
exactly status 429 or any status ≥ 500 (which on the standard status range
100–599 coincides with "429 or 5xx"). -/
theorem makeAPICall_retry_policy (doCall : Nat → Except APIErr String) :
    (makeAPICall doCall).2 ≤ 3
    ∧ (∀ c m, isRetryableError (APIErr.api c m)
        = (decide (c = 429) || decide (500 ≤ c)))
    ∧ backoffSeconds 1 = 1 ∧ backoffSeconds 2 = 2
    ∧ (∀ e, doCall 0 = Except.error e → isRetryableError e = false →
        makeAPICall doCall = (Except.error e, 1))
    ∧ (∀ e, doCall 0 = Except.error e → isRetryableError e = true →
        2 ≤ (makeAPICall doCall).2) := by
  refine ⟨?_, fun c m => rfl, rfl, rfl, ?_, ?_⟩
  · simp only [makeAPICall, maxRetries, makeAPICallLoop]
    rcases doCall 0 with e0 | r0 <;> simp only []
    · rcases h : isRetryableError e0 <;> simp only [Bool.false_eq_true, if_false, if_true]
      · omega
      · rcases doCall 1 with e1 | r1 <;> simp only []
        · rcases h1 : isRetryableError e1 <;> simp only [Bool.false_eq_true, if_false, if_true]
          · omega
          · rcases doCall 2 with e2 | r2 <;> simp only []
            · rcases h2 : isRetryableError e2 <;>
                simp only [Bool.false_eq_true, if_false, if_true] <;> omega
            · omega
        · omega
    · omega
  · intro e h0 hr
    simp only [makeAPICall, maxRetries, makeAPICallLoop, h0, hr, Bool.false_eq_true,
      if_false]
  · intro e h0 hr
    simp only [makeAPICall, maxRetries, makeAPICallLoop, h0, hr, if_true]
    rcases doCall 1 with e1 | r1 <;> simp only []
    · rcases h1 : isRetryableError e1 <;> simp only [Bool.false_eq_true, if_false, if_true]
      · omega
      · rcases doCall 2 with e2 | r2 <;> simp only []
        · rcases h2 : isRetryableError e2 <;>
            simp only [Bool.false_eq_true, if_false, if_true] <;> omega
        · omega
    · omega

/-- C7 witness: a non-retryable client error (HTTP 400) on the first attempt
is returned immediately with exactly one attempt made. -/
theorem makeAPICall_retry_policy_witness :
    makeAPICall (fun _ => Except.error (APIErr.api 400 "bad"))
      = (Except.error (APIErr.api 400 "bad"), 1) :=
  (makeAPICall_retry_policy (fun _ => Except.error (APIErr.api 400 "bad"))).2.2.2.2.1
    (APIErr.api 400 "bad") rfl rfl

/-- C1: for every oracle, the progress writes of an accepted request visit
the stages as an initial segment of `Pending(0), Validating(0), Forking(1),
Cloning(2), Analyzing(3), Modifying(4), Committing(5), CreatingPullRequest(6)`
followed by at most one terminal write (`Completed` carrying step 9,
`Rejected`, or `Error`) as the final write; step numbers match
`ParseStepFromStatus` and are non-decreasing until the terminal write, and no
write re-enters an earlier stage (`c1check` states exactly these
conditions). -/
theorem pipeline_stage_order (env : Env) (req : Request) (id : String) :
    c1check (acceptedRequestWrites env req id) = true :=
  (run_trace_ok env req id).1

/-- C2: when the validator judges the prompt not actionable, the run writes
only the `validating` record and then a terminal `rejected` record carrying
the model's reason, returns the `prompt validation failed` error before any
fork or clone call (no `forking` or later stage is ever written, and no PR
is created), and the async `Handle` wrapper does not overwrite the
`rejected` record with a generic `error` record. -/
theorem rejection_path (env : Env) (req : Request) (id owner repo reason : String)
    (hP : ParseRepoURL req.repositoryURL = Except.ok (owner, repo))
    (hV : env.validatePrompt = Except.ok (false, reason)) :
    handleAsync env req id
      = ([wValidating id req.repositoryURL env.now,
          Event.track (Tracker.rejectRecord id reason req.repositoryURL env.now)],
         Except.error ("prompt validation failed: " ++ reason))
    ∧ (trackWrites (handleAsync env req id).1).map (·.status)
        = [Status.validating, Status.rejected]
    ∧ (∀ w ∈ trackWrites (handleAsync env req id).1, w.status ≠ Status.err)
    ∧ forkCalls (handleAsync env req id).1 = []
    ∧ cloneCalls (handleAsync env req id).1 = []
    ∧ createdPRs (handleAsync env req id).1 = []
    ∧ (∃ w ∈ trackWrites (handleAsync env req id).1,
        w.status = Status.rejected ∧ w.errorDetails = reason) := by
  have hVv : validationVerdict env.validatePrompt = some reason := by
    rw [hV]
    rfl
  have hmain : handleAsync env req id
      = ([wValidating id req.repositoryURL env.now,
          Event.track (Tracker.rejectRecord id reason req.repositoryURL env.now)],
         Except.error ("prompt validation failed: " ++ reason)) := by
    simp only [handleAsync, processRepository, hP, hVv, prependEvents, handleAsyncCore,
      contains_pvf]
    rfl
  rw [hmain]
  refine ⟨rfl, rfl, ?_, rfl, rfl, rfl, ?_⟩
  · intro w hw
    simp [trackWrites, wValidating] at hw
    rcases hw with rfl | rfl <;> simp [Tracker.updateRecord, Tracker.rejectRecord]
  · exact ⟨Tracker.rejectRecord id reason req.repositoryURL env.now,
      by simp [trackWrites, wValidating], rfl, rfl⟩

/-- C2 witness: a concrete not-actionable verdict produces exactly the
`validating` and `rejected` writes and the validation-failure error. -/
theorem rejection_path_witness :
    (handleAsync { okEnv with validatePrompt := Except.ok (false, "too vague") }
        sampleReq "rid-1").2
      = Except.error "prompt validation failed: too vague"
    ∧ forkCalls (handleAsync { okEnv with validatePrompt := Except.ok (false, "too vague") }
        sampleReq "rid-1").1 = [] := by
  have h := rejection_path
    { okEnv with validatePrompt := Except.ok (false, "too vague") }
    sampleReq "rid-1" "acme" "widgets" "too vague" rfl rfl
  exact ⟨by rw [h.1]; rfl, h.2.2.2.1⟩

/-- C10: on the async invocation path, a payload that validates but carries
no request identity runs the pipeline under the freshly minted identifier
instead of failing, and every progress record of that run is keyed by the
fresh identifier. -/
theorem async_fresh_identifier (env : Env) (freshUUID : String) (rw0 : RequestWithID)
    (hvalid : rw0.request.validate = Except.ok ())
    (hid : rw0.requestID = "") :
    handleAsyncInvocation env freshUUID rw0
      = ((handleAsync env rw0.request freshUUID).1,
         AsyncOutcome.run (handleAsync env rw0.request freshUUID).2)
    ∧ ∀ w ∈ trackWrites (handleAsyncInvocation env freshUUID rw0).1,
        w.requestId = freshUUID := by
  have hred : handleAsyncInvocation env freshUUID rw0
      = ((handleAsync env rw0.request freshUUID).1,
         AsyncOutcome.run (handleAsync env rw0.request freshUUID).2) := by
    simp [handleAsyncInvocation, hvalid, hid]
  refine ⟨hred, ?_⟩
  rw [hred]
  exact (run_trace_ok env rw0.request freshUUID).2

/-- C10 witness: the sample request without an identity runs under the
minted identifier. -/
theorem async_fresh_identifier_witness :
    handleAsyncInvocation okEnv "uuid-7" ⟨sampleReq, ""⟩
      = ((handleAsync okEnv sampleReq "uuid-7").1,
         AsyncOutcome.run (handleAsync okEnv sampleReq "uuid-7").2) :=
  (async_fresh_identifier okEnv "uuid-7" ⟨sampleReq, ""⟩ rfl rfl).1

/-- C4: in a run whose commit step finds a clean tree (no changes): if the
listing finds at least one open default-branch bot PR, the run succeeds
with the response embedding that (first) PR's URL and neither creates nor
closes any PR; if it finds none, the run fails with the explicit
"no changes to commit and no existing PR found" error and creates no PR. -/
theorem clean_tree_reconciliation (env : Env) (req : Request)
    (id owner repo clonePath defaultBranch fileTree explanation : String)
    (fork : ForkInfo) (user : UserInfo) (filesToRead filesToModify : List String)
    (kv kv2 : String × String) (fcs ms : List (String × String))
    (prs : List PullReq)
    (hP : ParseRepoURL req.repositoryURL = Except.ok (owner, repo))
    (hV : validationVerdict env.validatePrompt = none)
    (hF : env.forkRepository = Except.ok fork)
    (hU : env.getAuthenticatedUser = Except.ok user)
    (hC : env.cloneRepository = Except.ok clonePath)
    (hD : env.getDefaultBranch = Except.ok defaultBranch)
    (hR : env.resetToUpstream = Except.ok ())
    (hB : env.createBranch = Except.ok ())
    (hL : env.listFiles = Except.ok fileTree)
    (hA : env.analyzeRepositoryForFiles = Except.ok filesToRead)
    (hRd : readAll env filesToRead = kv :: fcs)
    (hPl : env.determineFilesToModify = Except.ok (filesToModify, explanation))
    (hG : generateAll env (kv :: fcs) filesToModify = kv2 :: ms)
    (hW : writeAll env (kv2 :: ms) = Except.ok ())
    (hCm : commitOutcome env.commitAndPush = Except.ok false)
    (hLi : env.listOpenPullRequests = Except.ok prs) :
    (∀ pr0 rest, prs = pr0 :: rest →
      (processRepository env req id).2 = Except.ok (noChangesResponse owner repo fork pr0)
      ∧ createdPRs (processRepository env req id).1 = []
      ∧ closedPRs (processRepository env req id).1 = []
      ∧ deletedBranches (processRepository env req id).1 = [])
    ∧ (prs = [] →
      (processRepository env req id).2
        = Except.error "no changes to commit and no existing PR found"
      ∧ createdPRs (processRepository env req id).1 = []) := by
  constructor
  · rintro pr0 rest rfl
    simp only [processRepository, hP, hV, prependEvents, doFork, hF, doUser, hU,
      doClone, hC, doDefaultBranch, hD, doReset, hR, doCreateBranch, hB, doListFiles,
      hL, doAnalyze, hA, doRead, hRd, doPlan, hPl, doGenerate, hG, hW, doCommit, hCm,
      reconcile, hLi]
    refine ⟨?_, ?_, ?_, ?_⟩ <;> trivial
  · rintro rfl
    simp only [processRepository, hP, hV, prependEvents, doFork, hF, doUser, hU,
      doClone, hC, doDefaultBranch, hD, doReset, hR, doCreateBranch, hB, doListFiles,
      hL, doAnalyze, hA, doRead, hRd, doPlan, hPl, doGenerate, hG, hW, doCommit, hCm,
      reconcile, hLi]
    refine ⟨?_, ?_⟩ <;> trivial

/-- C4 witness: a clean tree with one existing default-branch PR resolves to
that PR's response and creates nothing. -/
theorem clean_tree_reconciliation_witness :
    (processRepository
        { okEnv with commitAndPush := some "no changes to commit",
                     listOpenPullRequests := Except.ok [pr7] } sampleReq "rid-1").2
      = Except.ok (noChangesResponse "acme" "widgets" okFork pr7)
    ∧ createdPRs (processRepository
        { okEnv with commitAndPush := some "no changes to commit",
                     listOpenPullRequests := Except.ok [pr7] } sampleReq "rid-1").1 = [] := by
  have h := (clean_tree_reconciliation
      { okEnv with commitAndPush := some "no changes to commit",
                   listOpenPullRequests := Except.ok [pr7] }
      sampleReq "rid-1" "acme" "widgets" "/tmp/bot-widgets" "main" "README.md\n"
      "Added a contributing section" okFork okUser ["README.md"] ["README.md"]
      ("README.md", "# Widgets\n") ("README.md", "# Widgets\n\nContributing welcome.")
      [] [] [pr7] rfl rfl rfl rfl rfl rfl rfl rfl rfl rfl rfl rfl rfl rfl rfl rfl).1
      pr7 [] rfl
  exact ⟨h.1, h.2.1⟩

/-- C5: in a run that committed new changes and whose listing finds open
default-branch bot PRs, the run closes every listed PR with the supersession
comment, deletes each closed PR's head branch on the fork except when that
branch is the default branch, and creates exactly one new PR from the
timestamped branch onto upstream's default branch, succeeding with the full
response. -/
theorem supersede_reconciliation (env : Env) (req : Request)
    (id owner repo clonePath defaultBranch fileTree explanation : String)
    (fork : ForkInfo) (user : UserInfo) (filesToRead filesToModify : List String)
    (kv kv2 : String × String) (fcs ms : List (String × String))
    (pr0 : PullReq) (rest : List PullReq) (newPR : PullReq)
    (hP : ParseRepoURL req.repositoryURL = Except.ok (owner, repo))
    (hV : validationVerdict env.validatePrompt = none)
    (hF : env.forkRepository = Except.ok fork)
    (hU : env.getAuthenticatedUser = Except.ok user)
    (hC : env.cloneRepository = Except.ok clonePath)
    (hD : env.getDefaultBranch = Except.ok defaultBranch)
    (hR : env.resetToUpstream = Except.ok ())
    (hB : env.createBranch = Except.ok ())
    (hL : env.listFiles = Except.ok fileTree)
    (hA : env.analyzeRepositoryForFiles = Except.ok filesToRead)
    (hRd : readAll env filesToRead = kv :: fcs)
    (hPl : env.determineFilesToModify = Except.ok (filesToModify, explanation))
    (hG : generateAll env (kv :: fcs) filesToModify = kv2 :: ms)
    (hW : writeAll env (kv2 :: ms) = Except.ok ())
    (hCm : commitOutcome env.commitAndPush = Except.ok true)
    (hLi : env.listOpenPullRequests = Except.ok (pr0 :: rest))
    (hClose : ∀ n, env.closePullRequest n = Except.ok ())
    (hDel : ∀ b, env.deleteBranch b = Except.ok ())
    (hCr : env.createPullRequest = Except.ok newPR) :
    closedPRs (processRepository env req id).1
      = (pr0 :: rest).map (fun pr => (pr.number, closeComment req))
    ∧ deletedBranches (processRepository env req id).1
      = ((pr0 :: rest).filter fun pr => !(pr.headRef == defaultBranch)).map
          (fun pr => (user.login, repo, pr.headRef))
    ∧ createdPRs (processRepository env req id).1
      = [(user.login, branchName env, defaultBranch)]
    ∧ (processRepository env req id).2
      = Except.ok (successResponse owner repo fork newPR filesToRead (kv2 :: ms)
          explanation) := by
  have hcc := closedPRs_closeAll env req owner repo user defaultBranch (pr0 :: rest)
    hClose hDel
  have hdd := deletedBranches_closeAll env req owner repo user defaultBranch
    (pr0 :: rest) hClose hDel
  have hnn := createdPRs_closeAll env req owner repo user defaultBranch (pr0 :: rest)
  simp only [processRepository, hP, hV, prependEvents, doFork, hF, doUser, hU,
    doClone, hC, doDefaultBranch, hD, doReset, hR, doCreateBranch, hB, doListFiles,
    hL, doAnalyze, hA, doRead, hRd, doPlan, hPl, doGenerate, hG, hW, doCommit, hCm,
    reconcile, hLi, createPRStage, hCr]
  refine ⟨?_, ?_, ?_, by trivial⟩
  · simp only [closedPRs_append, hcc]
    simp [closedPRs, wValidating, wForking, wCloning, wAnalyzing, wModifying,
      wCommitting, wCreatingPR]
  · simp only [deletedBranches_append, hdd]
    simp [deletedBranches, wValidating, wForking, wCloning, wAnalyzing, wModifying,
      wCommitting, wCreatingPR]
  · simp only [createdPRs_append, hnn]
    simp [createdPRs, wValidating, wForking, wCloning, wAnalyzing, wModifying,
      wCommitting, wCreatingPR]

/-- C5 witness: with two existing default-branch-listed PRs (one whose head
is the default branch, one from an old timestamped branch) and new
committed changes, both PRs are closed with the supersession comment, only
the non-default head branch is deleted, and exactly one new PR is created
from the timestamped branch onto the default branch. -/
theorem supersede_reconciliation_witness :
    closedPRs (processRepository
        { okEnv with listOpenPullRequests := Except.ok [pr7, pr8] }
        sampleReq "rid-1").1
      = [(7, closeComment sampleReq), (8, closeComment sampleReq)]
    ∧ deletedBranches (processRepository
        { okEnv with listOpenPullRequests := Except.ok [pr7, pr8] }
        sampleReq "rid-1").1
      = [("bot", "widgets", "auto-pr-bot/1690000000")]
    ∧ createdPRs (processRepository
        { okEnv with listOpenPullRequests := Except.ok [pr7, pr8] }
        sampleReq "rid-1").1
      = [("bot", "auto-pr-bot/1700000000", "main")] := by
  have h := supersede_reconciliation
    { okEnv with listOpenPullRequests := Except.ok [pr7, pr8] }
    sampleReq "rid-1" "acme" "widgets" "/tmp/bot-widgets" "main" "README.md\n"
    "Added a contributing section" okFork okUser ["README.md"] ["README.md"]
    ("README.md", "# Widgets\n") ("README.md", "# Widgets\n\nContributing welcome.")
    [] [] pr7 [pr8] okPR rfl rfl rfl rfl rfl rfl rfl rfl rfl rfl rfl rfl rfl rfl rfl
    rfl (fun n => rfl) (fun b => rfl) rfl
  refine ⟨?_, ?_, ?_⟩
  · rw [h.1]
    rfl
  · rw [h.2.1]
    rfl
  · rw [h.2.2.1]
    rfl

end AutoPR
